import Mathlib

set_option autoImplicit false

/-!
Shallow embedding of the HVAC dispatch core: the multi-factor assignment
engine (`backend/assignment_engine.py`), the database helper operations
(`backend/database.py`), and the data model (`backend/models.py`).

Conventions of the embedding:
* Timestamps are rationals measured in hours (so Python's
  `(t2 - t1).total_seconds() / 3600` is plain subtraction here).
* Floats are rationals; nullable columns are `Option` values.
* The trigonometric core of the haversine formula is not representable as a
  computable rational function, so every definition that needs it takes an
  abstract distance core `hav : ℚ → ℚ → ℚ → ℚ → ℚ` as a parameter; all
  null-handling, sentinel substitution, tiering and plumbing around it is
  embedded faithfully from the source.
* Python dict comprehensions built from row lists keep the *last* entry for a
  duplicated key, hence the `reverse.find?` lookups.
* `models.Job` has no `assigned_at` / `started_at` / `completed_at` /
  `actual_hours` columns, but the helper code reads and writes these as plain
  Python instance attributes.  They are embedded as `Option` fields where
  `none` models "attribute never set"; reading an unset attribute raises
  `AttributeError`, which the helper's `except` blocks turn into a rollback
  plus re-raise (the `raised` outcome below).
-/

inductive Priority where
  | ROUTINE
  | URGENT
  | HIGH
  | CRITICAL
  | EMERGENCY
deriving DecidableEq

inductive JobStatus where
  | PENDING
  | ASSIGNED
  | IN_PROGRESS
  | COMPLETED
  | CANCELLED
deriving DecidableEq

structure Technician where
  id : Nat
  skills : List String
  skill_levels : List (String × Nat)
  inventory : List (String × Nat)
  current_lat : Option ℚ
  current_lon : Option ℚ
  active : Bool
  free_at : Option ℚ
deriving DecidableEq

structure Job where
  id : Nat
  required_skills : List String
  priority : Priority
  status : JobStatus
  lat : Option ℚ
  lon : Option ℚ
  estimated_hours : ℚ
  submitted_at : Option ℚ
  sla_met : Option Bool
  assigned_at : Option ℚ
  started_at : Option ℚ
  completed_at : Option ℚ
  actual_hours : Option ℚ
deriving DecidableEq

structure Assignment where
  job_id : Nat
  tech_id : Nat
  assigned_at : ℚ
  distance_miles : ℚ
  travel_time_hours : ℚ
  match_score : ℚ
deriving DecidableEq

structure JobPart where
  job_id : Nat
  part_sku : String
  quantity_used : Nat
deriving DecidableEq

structure PerfMetric where
  tech_id : Nat
  billable_hours : ℚ
deriving DecidableEq

structure DB where
  jobs : List Job
  technicians : List Technician
  job_parts : List JobPart
  perf_today : List PerfMetric
  assignments : List Assignment
deriving DecidableEq

/-- Embeds `DatabaseHelper.get_job`: first job row matching the id. -/
def get_job (db : DB) (job_id : Nat) : Option Job :=
  db.jobs.find? (fun j => j.id == job_id)

/-- Embeds `DatabaseHelper.get_technician`. -/
def get_technician (db : DB) (tech_id : Nat) : Option Technician :=
  db.technicians.find? (fun t => t.id == tech_id)

/-- Embeds `DatabaseHelper.get_available_technicians`:
`active == True AND (free_at IS NULL OR free_at <= now)`. -/
def get_available_technicians (db : DB) (now : ℚ) : List Technician :=
  db.technicians.filter (fun t =>
    t.active && (match t.free_at with
      | none => true
      | some f => decide (f ≤ now)))

/-- SQLAlchemy mutation of a fetched `Job` row, then commit: the stored row
with this id takes the new value. -/
def updateJob (db : DB) (j : Job) : DB :=
  { db with jobs := db.jobs.map (fun x => if x.id == j.id then j else x) }

/-- SQLAlchemy mutation of a fetched `Technician` row, then commit. -/
def updateTech (db : DB) (t : Technician) : DB :=
  { db with technicians := db.technicians.map (fun x => if x.id == t.id then t else x) }

/-- Python `x or 0` on an optional float: `None` becomes `0` (and `0.0`
stays `0`, so on rationals this is exactly `Option.getD`). -/
def orZero : Option ℚ → ℚ
  | none => 0
  | some x => x

/-- Embeds `DatabaseHelper.haversine`: explicit `None` check returning `0.0`, then
the trigonometric core (abstracted as `hav`). -/
def db_haversine (hav : ℚ → ℚ → ℚ → ℚ → ℚ) :
    Option ℚ → Option ℚ → Option ℚ → Option ℚ → ℚ
  | some a, some b, some c, some d => hav a b c d
  | _, _, _, _ => 0

/-- The dict `{sk.skill_name: sk.proficiency_level for sk in tech.skill_levels}`:
last row for a duplicated skill name wins. -/
def techSkillLookup (tech : Technician) (skill : String) : Option Nat :=
  (tech.skill_levels.reverse.find? (fun p => p.1 == skill)).map (fun p => p.2)

/-- The dict `{inv.part_sku: inv.quantity for inv in tech.inventory}`. -/
def techInventoryLookup (tech : Technician) (sku : String) : Option Nat :=
  (tech.inventory.reverse.find? (fun p => p.1 == sku)).map (fun p => p.2)

/-- The accumulation loop of `_score_skill_match`: walks the required skills,
bails out (`none`) at the first missing one, otherwise sums the normalized
proficiencies `level / 5`. -/
def scoreSkillSum (lookup : String → Option Nat) : List String → Option ℚ
  | [] => some 0
  | r :: rs =>
    match lookup r with
    | none => none
    | some p => (scoreSkillSum lookup rs).map (fun s => (p : ℚ) / 5 + s)

/-- Embeds `AssignmentEngine._score_skill_match`. -/
def score_skill_match (tech : Technician) (job : Job) : ℚ :=
  if job.required_skills = [] then 1
  else
    match scoreSkillSum (techSkillLookup tech) job.required_skills with
    | none => 0
    | some total =>
      if (job.priority = Priority.CRITICAL ∨ job.priority = Priority.EMERGENCY)
          ∧ total / (job.required_skills.length : ℚ) > 0.8
      then min 1 (total / (job.required_skills.length : ℚ) * 1.1)
      else total / (job.required_skills.length : ℚ)

/-- Today's `TechPerformanceMetric.billable_hours` for a technician
(`perf_today` holds today's rows; absence or a null value reads as `0`). -/
def todayBillable (db : DB) (tech : Technician) : ℚ :=
  match db.perf_today.find? (fun m => m.tech_id == tech.id) with
  | none => 0
  | some m => m.billable_hours

/-- Embeds `AssignmentEngine._score_utilization`. -/
def score_utilization (db : DB) (tech : Technician) (job : Job) : ℚ :=
  max 0 (min 1
    (if todayBillable db tech + job.estimated_hours ≤ 6
     then 1 - |todayBillable db tech + job.estimated_hours - 6| / 6
     else max 0 (1 - (todayBillable db tech + job.estimated_hours - 6) / 3)))

/-- The "next scheduled job" query of `_score_geography`:
`db.query(Job).filter(Job.id != job.id).first()` — the first *other* job in
the store, regardless of technician or schedule. -/
def nextJobLookup (db : DB) (job : Job) : Option Job :=
  db.jobs.find? (fun j => j.id != job.id)

/-- Embeds `AssignmentEngine._score_geography`.  Note two source quirks embedded
faithfully: the job's missing coordinates are substituted with `0.0`
(`float(job.lat) if job.lat is not None else 0.0`), and the technician
location test is Python truthiness (`if not tech_lat or not tech_lon`), so a
coordinate equal to `0.0` is treated like a missing one. -/
def score_geography (hav : ℚ → ℚ → ℚ → ℚ → ℚ) (db : DB)
    (tech : Technician) (job : Job) : ℚ :=
  match tech.current_lat, tech.current_lon with
  | some tlat, some tlon =>
    if tlat = 0 ∨ tlon = 0 then 0.5
    else
      match nextJobLookup db job with
      | some nj =>
        match nj.lat, nj.lon with
        | some nlat, some nlon =>
          if hav tlat tlon (orZero job.lat) (orZero job.lon)
              + hav (orZero job.lat) (orZero job.lon) nlat nlon
              - hav tlat tlon nlat nlon < 5 then 1
          else if hav tlat tlon (orZero job.lat) (orZero job.lon)
              + hav (orZero job.lat) (orZero job.lon) nlat nlon
              - hav tlat tlon nlat nlon < 15 then 0.7
          else 0.3
        | _, _ =>
          if hav tlat tlon (orZero job.lat) (orZero job.lon) < 5 then 1
          else if hav tlat tlon (orZero job.lat) (orZero job.lon) < 15 then 0.8
          else if hav tlat tlon (orZero job.lat) (orZero job.lon) < 30 then 0.5
          else 0.2
      | none =>
        if hav tlat tlon (orZero job.lat) (orZero job.lon) < 5 then 1
        else if hav tlat tlon (orZero job.lat) (orZero job.lon) < 15 then 0.8
        else if hav tlat tlon (orZero job.lat) (orZero job.lon) < 30 then 0.5
        else 0.2
  | _, _ => 0.5

/-- Embeds `AssignmentEngine._score_parts_availability`. -/
def score_parts_availability (db : DB) (tech : Technician) (job : Job) : ℚ :=
  if db.job_parts.filter (fun p => p.job_id == job.id) = [] then 1
  else
    ((db.job_parts.filter (fun p => p.job_id == job.id)).countP (fun p =>
      match techInventoryLookup tech p.part_sku with
      | some q => decide (q ≥ p.quantity_used)
      | none => false) : ℚ)
    / ((db.job_parts.filter (fun p => p.job_id == job.id)).length : ℚ)

/-- Embeds `AssignmentEngine._score_customer_preference`: neutral placeholder. -/
def score_customer_preference (_tech : Technician) (_job : Job) : ℚ := 0.5

/-- Embeds `AssignmentEngine.priority_multipliers`. -/
def priority_multiplier : Priority → ℚ
  | Priority.CRITICAL => 2
  | Priority.EMERGENCY => 1.5
  | Priority.URGENT => 1.2
  | Priority.ROUTINE => 1
  | Priority.HIGH => 1.1

/-- The weighted sum of `calculate_assignment_score` before the priority
multiplier, with the engine's weights
skill 0.35, utilization 0.25, geography 0.20, parts 0.15, customer 0.05. -/
def weighted_total (hav : ℚ → ℚ → ℚ → ℚ → ℚ) (db : DB)
    (tech : Technician) (job : Job) : ℚ :=
  score_skill_match tech job * 0.35
    + score_utilization db tech job * 0.25
    + score_geography hav db tech job * 0.20
    + score_parts_availability db tech job * 0.15
    + score_customer_preference tech job * 0.05

/-- The `breakdown` dict returned by `calculate_assignment_score`. -/
structure Breakdown where
  skill : ℚ
  utilization : ℚ
  geography : ℚ
  parts : ℚ
  customer : ℚ
  priority_mult : ℚ
  final_score : ℚ
deriving DecidableEq

/-- Embeds `AssignmentEngine.calculate_assignment_score`. -/
def calculate_assignment_score (hav : ℚ → ℚ → ℚ → ℚ → ℚ) (db : DB)
    (tech : Technician) (job : Job) : ℚ × Breakdown :=
  let total := weighted_total hav db tech job * priority_multiplier job.priority
  (total,
    { skill := score_skill_match tech job
      utilization := score_utilization db tech job
      geography := score_geography hav db tech job
      parts := score_parts_availability db tech job
      customer := score_customer_preference tech job
      priority_mult := priority_multiplier job.priority
      final_score := total })

/-- The candidate pool actually used by `find_best_technician`: Python's
`if not available_techs` treats an explicitly passed *empty* list exactly like
the absent argument, falling back to the availability query. -/
def effective_pool (db : DB) (now : ℚ) :
    Option (List Technician) → List Technician
  | none => get_available_technicians db now
  | some [] => get_available_technicians db now
  | some ts => ts

/-- The selection loop of `find_best_technician`: skip candidates whose
skill factor is `0`, keep the first strict improvement over the running best
(initially `-1.0`). -/
def selectLoop (hav : ℚ → ℚ → ℚ → ℚ → ℚ) (db : DB) (job : Job) :
    List Technician → Option (Technician × ℚ × Breakdown) → ℚ →
      Option (Technician × ℚ × Breakdown)
  | [], best, _ => best
  | t :: ts, best, best_score =>
    if (calculate_assignment_score hav db t job).2.skill = 0 then
      selectLoop hav db job ts best best_score
    else if (calculate_assignment_score hav db t job).1 > best_score then
      selectLoop hav db job ts (some (t, calculate_assignment_score hav db t job))
        (calculate_assignment_score hav db t job).1
    else selectLoop hav db job ts best best_score

/-- Embeds `AssignmentEngine.find_best_technician`. -/
def find_best_technician (hav : ℚ → ℚ → ℚ → ℚ → ℚ) (db : DB) (now : ℚ)
    (job_id : Nat) (available_techs : Option (List Technician)) :
    Option (Technician × ℚ × Breakdown) :=
  match get_job db job_id with
  | none => none
  | some job =>
    let techs := effective_pool db now available_techs
    if techs = [] then none
    else selectLoop hav db job techs none (-1)

/-- Embeds `DatabaseHelper.auto_assign_job`, success path of the engine branch.
Note: the job update is literally `job.status = JobStatus.ASSIGNED` with the
source comment "ONLY update status"; no timestamp is written to the job. -/
def auto_assign_job (hav : ℚ → ℚ → ℚ → ℚ → ℚ) (db : DB) (now : ℚ)
    (job_id : Nat) : Option Assignment × DB :=
  match get_job db job_id with
  | none => (none, db)
  | some job =>
    if job.status ≠ JobStatus.PENDING then (none, db)
    else
      match find_best_technician hav db now job_id none with
      | none => (none, db)
      | some (best_tech, score, _) =>
        let distance := db_haversine hav
          (some (orZero job.lat)) (some (orZero job.lon))
          (some (orZero best_tech.current_lat)) (some (orZero best_tech.current_lon))
        let travel_hours := distance / 30
        let a : Assignment :=
          { job_id := job.id
            tech_id := best_tech.id
            assigned_at := now
            distance_miles := distance
            travel_time_hours := travel_hours
            match_score := score }
        let job2 := { job with status := JobStatus.ASSIGNED }
        let tech2 := { best_tech with
          free_at := some (now + travel_hours + job.estimated_hours) }
        let db2 := updateTech (updateJob db job2) tech2
        (some a, { db2 with assignments := db2.assignments ++ [a] })

/-- Embeds `set(job_skills).issubset(tech_skills)` on skill-name lists. -/
def subsetOf (xs ys : List String) : Bool :=
  xs.all (fun s => ys.contains s)

/-- The candidate loop of `DatabaseHelper._simple_assign_job`: first available
technician whose plain skill set covers the job's required skills. -/
def simple_assign_loop (hav : ℚ → ℚ → ℚ → ℚ → ℚ) (db : DB) (now : ℚ) (job : Job) :
    List Technician → Option Assignment × DB
  | [] => (none, db)
  | tech :: rest =>
    if subsetOf job.required_skills tech.skills then
      let distance := db_haversine hav
        (some (orZero job.lat)) (some (orZero job.lon))
        (some (orZero tech.current_lat)) (some (orZero tech.current_lon))
      let travel_hours := distance / 30
      let a : Assignment :=
        { job_id := job.id
          tech_id := tech.id
          assigned_at := now
          distance_miles := distance
          travel_time_hours := travel_hours
          match_score := 0.5 }
      let job2 := { job with status := JobStatus.ASSIGNED }
      let tech2 := { tech with
        free_at := some (now + travel_hours + job.estimated_hours) }
      let db2 := updateTech (updateJob db job2) tech2
      (some a, { db2 with assignments := db2.assignments ++ [a] })
    else simple_assign_loop hav db now job rest

/-- Embedding of `DatabaseHelper._simple_assign_job`, the fallback used when
the engine import fails: first skill-covering available technician wins. -/
def simple_assign_job (hav : ℚ → ℚ → ℚ → ℚ → ℚ) (db : DB) (now : ℚ)
    (job_id : Nat) : Option Assignment × DB :=
  match get_job db job_id with
  | none => (none, db)
  | some job =>
    if job.status ≠ JobStatus.PENDING then (none, db)
    else
      match get_available_technicians db now with
      | [] => (none, db)
      | t :: ts => simple_assign_loop hav db now job (t :: ts)

/-- Outcome of a lifecycle helper (`start_job` / `cancel_job`): Python returns
`None` both for a missing job and for a failed state guard, and re-raises any
exception after rolling the transaction back. -/
inductive LifecycleResult where
  | notFound
  | precondFailed
  | raised
  | ok (j : Job)
deriving DecidableEq

/-- The SLA windows dict of `start_job`
(`.get(job.priority, 24)` is total on the enum). -/
def sla_window : Priority → ℚ
  | Priority.CRITICAL => 1
  | Priority.EMERGENCY => 2
  | Priority.URGENT => 8
  | Priority.HIGH => 4
  | Priority.ROUTINE => 24

/-- Embeds `DatabaseHelper.start_job`.  Embedded faithfully from the source: the
ASSIGNED guard, then `job.status = IN_PROGRESS` and — sic —
`job.assigned_at = datetime.utcnow()` (not `started_at`); the SLA block then
reads `job.started_at`, an attribute nothing in the system ever sets (and not
a `models.Job` column), so with `submitted_at` present the read raises
`AttributeError`, the `except` handler rolls back and re-raises. -/
def start_job (db : DB) (now : ℚ) (job_id : Nat) : LifecycleResult × DB :=
  match get_job db job_id with
  | none => (LifecycleResult.notFound, db)
  | some job =>
    if job.status ≠ JobStatus.ASSIGNED then (LifecycleResult.precondFailed, db)
    else
      let job2 := { job with status := JobStatus.IN_PROGRESS, assigned_at := some now }
      match job.submitted_at with
      | some submitted =>
        match job2.started_at with
        | none => (LifecycleResult.raised, db)
        | some started =>
          let response_hours := started - submitted
          let job3 := { job2 with sla_met := some (decide (response_hours ≤ sla_window job.priority)) }
          (LifecycleResult.ok job3, updateJob db job3)
      | none => (LifecycleResult.ok job2, updateJob db job2)

/-- Modelled from the spec: `DatabaseHelper.get_assignment_by_job` is called
by `cancel_job` and `complete_job` but its definition is absent from the
repository sources.  Per the spec's data model ("a job has at most one
*active* assignment at a time"; Entity Store read operations include fetching
Assignment rows) it fetches the job's Assignment row, if any. -/
def get_assignment_by_job (db : DB) (job_id : Nat) : Option Assignment :=
  db.assignments.find? (fun a => a.job_id == job_id)

/-- Embeds `DatabaseHelper.cancel_job`.  Note there is no status guard of any kind:
any found job is set to CANCELLED and committed. -/
def cancel_job (db : DB) (now : ℚ) (job_id : Nat) : LifecycleResult × DB :=
  match get_job db job_id with
  | none => (LifecycleResult.notFound, db)
  | some job =>
    let job2 := { job with status := JobStatus.CANCELLED }
    let db1 := updateJob db job2
    match get_assignment_by_job db job_id with
    | some a =>
      match get_technician db a.tech_id with
      | some tech => (LifecycleResult.ok job2, updateTech db1 { tech with free_at := some now })
      | none => (LifecycleResult.ok job2, db1)
    | none => (LifecycleResult.ok job2, db1)

/-- A concrete computable stand-in for the haversine trigonometric core, used
only to instantiate counterexamples and witnesses.  Like the real haversine
it is nonnegative and vanishes on identical points. -/
def havTaxi (a b c d : ℚ) : ℚ := |a - c| + |b - d|

/-! ## Concrete fixtures used by counterexamples and witnesses -/

def jobW1 : Job :=
  { id := 1, required_skills := ["Electrical"], priority := Priority.ROUTINE,
    status := JobStatus.PENDING, lat := none, lon := none, estimated_hours := 0,
    submitted_at := none, sla_met := none, assigned_at := none,
    started_at := none, completed_at := none, actual_hours := none }

def techW1 : Technician :=
  { id := 7, skills := ["HVAC"], skill_levels := [("HVAC", 3)], inventory := [],
    current_lat := none, current_lon := none, active := true, free_at := none }

def dbW1 : DB :=
  { jobs := [jobW1], technicians := [techW1], job_parts := [],
    perf_today := [], assignments := [] }

def job5 : Job :=
  { id := 1, required_skills := [], priority := Priority.ROUTINE,
    status := JobStatus.ASSIGNED, lat := none, lon := none, estimated_hours := 0,
    submitted_at := none, sla_met := none, assigned_at := none,
    started_at := none, completed_at := none, actual_hours := none }

def tech5 : Technician :=
  { id := 2, skills := [], skill_levels := [], inventory := [],
    current_lat := none, current_lon := none, active := true, free_at := none }

def db5 : DB :=
  { jobs := [job5], technicians := [tech5], job_parts := [],
    perf_today := [], assignments := [] }

def job9 : Job :=
  { id := 1, required_skills := [], priority := Priority.ROUTINE,
    status := JobStatus.PENDING, lat := none, lon := none, estimated_hours := 0,
    submitted_at := none, sla_met := none, assigned_at := none,
    started_at := none, completed_at := none, actual_hours := none }

def techA : Technician :=
  { id := 11, skills := [], skill_levels := [], inventory := [],
    current_lat := none, current_lon := none, active := true, free_at := none }

def techB : Technician :=
  { id := 12, skills := [], skill_levels := [], inventory := [],
    current_lat := none, current_lon := none, active := true, free_at := none }

def db9 : DB :=
  { jobs := [job9], technicians := [], job_parts := [],
    perf_today := [], assignments := [] }

def jobW8 : Job :=
  { id := 3, required_skills := ["HVAC"], priority := Priority.CRITICAL,
    status := JobStatus.PENDING, lat := none, lon := none, estimated_hours := 2,
    submitted_at := none, sla_met := none, assigned_at := none,
    started_at := none, completed_at := none, actual_hours := none }

def jobC2 : Job :=
  { id := 1, required_skills := [], priority := Priority.CRITICAL,
    status := JobStatus.ASSIGNED, lat := none, lon := none, estimated_hours := 1,
    submitted_at := some 100, sla_met := none, assigned_at := none,
    started_at := none, completed_at := none, actual_hours := none }

def dbC2 : DB :=
  { jobs := [jobC2], technicians := [], job_parts := [],
    perf_today := [], assignments := [] }

def jobC4 : Job :=
  { id := 1, required_skills := [], priority := Priority.ROUTINE,
    status := JobStatus.COMPLETED, lat := none, lon := none, estimated_hours := 2,
    submitted_at := some 10, sla_met := some true, assigned_at := none,
    started_at := some 12, completed_at := some 20, actual_hours := some 2 }

def dbC4 : DB :=
  { jobs := [jobC4], technicians := [], job_parts := [],
    perf_today := [], assignments := [] }

def job3 : Job :=
  { id := 1, required_skills := [], priority := Priority.ROUTINE,
    status := JobStatus.PENDING, lat := none, lon := none, estimated_hours := 0,
    submitted_at := some 1, sla_met := none, assigned_at := none,
    started_at := none, completed_at := none, actual_hours := none }

def tech3 : Technician :=
  { id := 2, skills := [], skill_levels := [], inventory := [],
    current_lat := none, current_lon := none, active := true, free_at := none }

def db3 : DB :=
  { jobs := [job3], technicians := [tech3], job_parts := [],
    perf_today := [], assignments := [] }

def a3 : Assignment :=
  { job_id := 1, tech_id := 2, assigned_at := 10, distance_miles := 0,
    travel_time_hours := 0, match_score := 5/8 }

def db3x : DB :=
  { jobs := [{ job3 with status := JobStatus.ASSIGNED }],
    technicians := [{ tech3 with free_at := some 10 }],
    job_parts := [], perf_today := [], assignments := [a3] }

def jobC6 : Job :=
  { id := 1, required_skills := [], priority := Priority.ROUTINE,
    status := JobStatus.PENDING, lat := none, lon := none, estimated_hours := 0,
    submitted_at := some 1, sla_met := none, assigned_at := none,
    started_at := none, completed_at := none, actual_hours := none }

def techC6 : Technician :=
  { id := 2, skills := [], skill_levels := [], inventory := [],
    current_lat := some 40, current_lon := some 40, active := true, free_at := none }

def dbC6 : DB :=
  { jobs := [jobC6], technicians := [techC6], job_parts := [],
    perf_today := [], assignments := [] }

/-- The lookahead coordinates used by the detour branch of `_score_geography`:
present exactly when the first other job exists and has both coordinates. -/
def nextJobCoords (db : DB) (job : Job) : Option (ℚ × ℚ) :=
  match nextJobLookup db job with
  | some nj =>
    match nj.lat, nj.lon with
    | some nlat, some nlon => some (nlat, nlon)
    | _, _ => none
  | none => none

def jobC7 : Job :=
  { id := 1, required_skills := [], priority := Priority.ROUTINE,
    status := JobStatus.PENDING, lat := some 0, lon := some 10,
    estimated_hours := 0, submitted_at := some 1, sla_met := none,
    assigned_at := none, started_at := none, completed_at := none,
    actual_hours := none }

def techC7 : Technician :=
  { id := 2, skills := [], skill_levels := [], inventory := [],
    current_lat := some 0, current_lon := some 10, active := true,
    free_at := none }

def dbC7 : DB :=
  { jobs := [jobC7], technicians := [techC7], job_parts := [],
    perf_today := [], assignments := [] }

/-! ## Helper lemmas: factor bounds -/

theorem scoreSkillSum_nonneg (lookup : String → Option Nat) :
    ∀ (rs : List String) (t : ℚ), scoreSkillSum lookup rs = some t → 0 ≤ t := by
  intro rs
  induction rs with
  | nil =>
    intro t h
    simp only [scoreSkillSum, Option.some.injEq] at h
    rw [← h]
  | cons r rs ih =>
    intro t h
    simp only [scoreSkillSum] at h
    cases hl : lookup r with
    | none => rw [hl] at h; simp at h
    | some p =>
      rw [hl] at h
      cases hs : scoreSkillSum lookup rs with
      | none => rw [hs] at h; simp at h
      | some s =>
        rw [hs] at h
        simp only [Option.map_some', Option.some.injEq] at h
        subst h
        have hs0 := ih s hs
        positivity

theorem techSkillLookup_mem (tech : Technician) (r : String) (p : Nat)
    (h : techSkillLookup tech r = some p) :
    ∃ q ∈ tech.skill_levels, q.2 = p := by
  unfold techSkillLookup at h
  cases hf : tech.skill_levels.reverse.find? (fun q => q.1 == r) with
  | none => rw [hf] at h; simp at h
  | some q =>
    rw [hf] at h
    simp only [Option.map_some', Option.some.injEq] at h
    refine ⟨q, ?_, h⟩
    have := List.mem_of_find?_eq_some hf
    rwa [List.mem_reverse] at this

theorem scoreSkillSum_le (tech : Technician)
    (h5 : ∀ q ∈ tech.skill_levels, q.2 ≤ 5) :
    ∀ (rs : List String) (t : ℚ),
      scoreSkillSum (techSkillLookup tech) rs = some t → t ≤ rs.length := by
  intro rs
  induction rs with
  | nil =>
    intro t h
    simp only [scoreSkillSum, Option.some.injEq] at h
    rw [← h]; simp
  | cons r rs ih =>
    intro t h
    simp only [scoreSkillSum] at h
    cases hl : techSkillLookup tech r with
    | none => rw [hl] at h; simp at h
    | some p =>
      rw [hl] at h
      cases hs : scoreSkillSum (techSkillLookup tech) rs with
      | none => rw [hs] at h; simp at h
      | some s =>
        rw [hs] at h
        simp only [Option.map_some', Option.some.injEq] at h
        subst h
        have hsl := ih s hs
        obtain ⟨q, hq, hqp⟩ := techSkillLookup_mem tech r p hl
        have hp5 : p ≤ 5 := hqp ▸ h5 q hq
        have hp5q : (p : ℚ) / 5 ≤ 1 := by
          rw [div_le_one (by norm_num)]
          exact_mod_cast hp5
        simp only [List.length_cons]
        push_cast
        linarith

theorem skill_nonneg (tech : Technician) (job : Job) :
    0 ≤ score_skill_match tech job := by
  unfold score_skill_match
  split
  · norm_num
  · split
    · norm_num
    · next total heq =>
      have h0 := scoreSkillSum_nonneg _ _ _ heq
      have hl : (0:ℚ) ≤ (job.required_skills.length : ℚ) := by positivity
      split
      · exact le_min (by norm_num) (by positivity)
      · positivity

theorem skill_le_one (tech : Technician) (job : Job)
    (h5 : ∀ q ∈ tech.skill_levels, q.2 ≤ 5) :
    score_skill_match tech job ≤ 1 := by
  unfold score_skill_match
  split
  · norm_num
  · next hne =>
    split
    · norm_num
    · next total heq =>
      have hlen : 0 < (job.required_skills.length : ℚ) := by
        have : job.required_skills ≠ [] := hne
        have := List.length_pos.mpr this
        exact_mod_cast this
      have havg : total / (job.required_skills.length : ℚ) ≤ 1 := by
        rw [div_le_one hlen]
        exact le_trans (scoreSkillSum_le tech h5 _ _ heq) (le_refl _)
      split
      · exact min_le_left _ _
      · exact havg

theorem util_bounds (db : DB) (tech : Technician) (job : Job) :
    0 ≤ score_utilization db tech job ∧ score_utilization db tech job ≤ 1 := by
  unfold score_utilization
  exact ⟨le_max_left 0 _, max_le (by norm_num) (min_le_left 1 _)⟩

theorem geo_bounds (hav : ℚ → ℚ → ℚ → ℚ → ℚ) (db : DB)
    (tech : Technician) (job : Job) :
    0 ≤ score_geography hav db tech job ∧ score_geography hav db tech job ≤ 1 := by
  unfold score_geography
  repeat' split
  all_goals norm_num

theorem parts_bounds (db : DB) (tech : Technician) (job : Job) :
    0 ≤ score_parts_availability db tech job ∧
      score_parts_availability db tech job ≤ 1 := by
  unfold score_parts_availability
  split
  · norm_num
  · next hne =>
    have hlen : 0 < ((db.job_parts.filter (fun p => p.job_id == job.id)).length : ℚ) := by
      have := List.length_pos.mpr hne
      exact_mod_cast this
    constructor
    · positivity
    · rw [div_le_one hlen]
      exact_mod_cast List.countP_le_length _

theorem customer_bounds (tech : Technician) (job : Job) :
    0 ≤ score_customer_preference tech job ∧ score_customer_preference tech job ≤ 1 := by
  unfold score_customer_preference
  norm_num

theorem pm_pos (p : Priority) : 0 < priority_multiplier p := by
  cases p <;> norm_num [priority_multiplier]

theorem pm_le_two (p : Priority) : priority_multiplier p ≤ 2 := by
  cases p <;> norm_num [priority_multiplier]

theorem pm_gt_one (p : Priority) (h : p ≠ Priority.ROUTINE) :
    1 < priority_multiplier p := by
  cases p <;> simp_all <;> norm_num [priority_multiplier]

theorem weighted_total_nonneg (hav : ℚ → ℚ → ℚ → ℚ → ℚ) (db : DB)
    (tech : Technician) (job : Job) : 0 ≤ weighted_total hav db tech job := by
  unfold weighted_total
  have h1 := skill_nonneg tech job
  have h2 := (util_bounds db tech job).1
  have h3 := (geo_bounds hav db tech job).1
  have h4 := (parts_bounds db tech job).1
  have h5 := (customer_bounds tech job).1
  nlinarith

theorem weighted_total_pos (hav : ℚ → ℚ → ℚ → ℚ → ℚ) (db : DB)
    (tech : Technician) (job : Job) : 0 < weighted_total hav db tech job := by
  unfold weighted_total
  have h1 := skill_nonneg tech job
  have h2 := (util_bounds db tech job).1
  have h3 := (geo_bounds hav db tech job).1
  have h4 := (parts_bounds db tech job).1
  have h5 : score_customer_preference tech job = 0.5 := rfl
  nlinarith

theorem weighted_total_le_one (hav : ℚ → ℚ → ℚ → ℚ → ℚ) (db : DB)
    (tech : Technician) (job : Job)
    (h5 : ∀ q ∈ tech.skill_levels, q.2 ≤ 5) :
    weighted_total hav db tech job ≤ 1 := by
  unfold weighted_total
  have h1a := skill_nonneg tech job
  have h1b := skill_le_one tech job h5
  have h2 := util_bounds db tech job
  have h3 := geo_bounds hav db tech job
  have h4 := parts_bounds db tech job
  have h5b := customer_bounds tech job
  nlinarith

theorem score_nonneg (hav : ℚ → ℚ → ℚ → ℚ → ℚ) (db : DB)
    (tech : Technician) (job : Job) :
    0 ≤ (calculate_assignment_score hav db tech job).1 := by
  have h1 := weighted_total_nonneg hav db tech job
  have h2 := (pm_pos job.priority).le
  simpa [calculate_assignment_score] using mul_nonneg h1 h2

/-! ## Helper lemmas: the selection loop -/

theorem breakdown_skill (hav : ℚ → ℚ → ℚ → ℚ → ℚ) (db : DB)
    (tech : Technician) (job : Job) :
    (calculate_assignment_score hav db tech job).2.skill = score_skill_match tech job := rfl

theorem selectLoop_isSome (hav : ℚ → ℚ → ℚ → ℚ → ℚ) (db : DB) (job : Job) :
    ∀ (ts : List Technician) (x : Technician × ℚ × Breakdown) (s₀ : ℚ),
      (selectLoop hav db job ts (some x) s₀).isSome := by
  intro ts
  induction ts with
  | nil => intro x s₀; simp [selectLoop]
  | cons t ts ih =>
    intro x s₀
    simp only [selectLoop]
    split
    · exact ih x s₀
    · split
      · exact ih _ _
      · exact ih x s₀

theorem selectLoop_none_iff (hav : ℚ → ℚ → ℚ → ℚ → ℚ) (db : DB) (job : Job) :
    ∀ (ts : List Technician) (s₀ : ℚ),
      selectLoop hav db job ts none s₀ = none ↔
        ∀ t ∈ ts, score_skill_match t job ≠ 0 →
          (calculate_assignment_score hav db t job).1 ≤ s₀ := by
  intro ts
  induction ts with
  | nil => intro s₀; simp [selectLoop]
  | cons t ts ih =>
    intro s₀
    simp only [selectLoop, breakdown_skill]
    by_cases hq : score_skill_match t job = 0
    · rw [if_pos hq, ih s₀]
      constructor
      · intro h u hu
        rcases List.mem_cons.mp hu with h1 | h1
        · subst h1; intro hne; exact absurd hq hne
        · exact h u h1
      · intro h u hu; exact h u (List.mem_cons_of_mem t hu)
    · rw [if_neg hq]
      by_cases hgt : (calculate_assignment_score hav db t job).1 > s₀
      · rw [if_pos hgt]
        constructor
        · intro h
          have := selectLoop_isSome hav db job ts (t, calculate_assignment_score hav db t job)
            (calculate_assignment_score hav db t job).1
          rw [h] at this
          simp at this
        · intro h
          have := h t (List.mem_cons_self t ts) hq
          exact absurd hgt (not_lt.mpr this)
      · rw [if_neg hgt, ih s₀]
        constructor
        · intro h u hu
          rcases List.mem_cons.mp hu with h1 | h1
          · subst h1; intro _; exact not_lt.mp hgt
          · exact h u h1
        · intro h u hu; exact h u (List.mem_cons_of_mem t hu)

theorem selectLoop_spec (hav : ℚ → ℚ → ℚ → ℚ → ℚ) (db : DB) (job : Job) :
    ∀ (ts : List Technician) (acc : Option (Technician × ℚ × Breakdown)) (s₀ : ℚ)
      (r : Technician × ℚ × Breakdown),
      (∀ x, acc = some x → x.2.1 = s₀) →
      selectLoop hav db job ts acc s₀ = some r →
      (acc = some r ∧ ∀ u ∈ ts, score_skill_match u job ≠ 0 →
          (calculate_assignment_score hav db u job).1 ≤ s₀) ∨
      (score_skill_match r.1 job ≠ 0 ∧
       r.2 = calculate_assignment_score hav db r.1 job ∧
       (calculate_assignment_score hav db r.1 job).1 > s₀ ∧
       (∀ u ∈ ts, score_skill_match u job ≠ 0 →
         (calculate_assignment_score hav db u job).1 ≤
           (calculate_assignment_score hav db r.1 job).1) ∧
       ∃ l₁ l₂, ts = l₁ ++ r.1 :: l₂ ∧
         ∀ u ∈ l₁, score_skill_match u job = 0 ∨
           (calculate_assignment_score hav db u job).1 <
             (calculate_assignment_score hav db r.1 job).1) := by
  intro ts
  induction ts with
  | nil =>
    intro acc s₀ r _ h
    simp only [selectLoop] at h
    exact Or.inl ⟨h, by simp⟩
  | cons t ts ih =>
    intro acc s₀ r hacc h
    simp only [selectLoop, breakdown_skill] at h
    by_cases hq : score_skill_match t job = 0
    · rw [if_pos hq] at h
      rcases ih acc s₀ r hacc h with ⟨h1, h2⟩ | ⟨h1, h2, h3, h4, l₁, l₂, h5, h6⟩
      · refine Or.inl ⟨h1, ?_⟩
        intro u hu
        rcases List.mem_cons.mp hu with rfl | hm
        · intro hne; exact absurd hq hne
        · exact h2 u hm
      · refine Or.inr ⟨h1, h2, h3, ?_, t :: l₁, l₂, by rw [h5, List.cons_append], ?_⟩
        · intro u hu
          rcases List.mem_cons.mp hu with rfl | hm
          · intro hne; exact absurd hq hne
          · exact h4 u hm
        · intro u hu
          rcases List.mem_cons.mp hu with rfl | hm
          · exact Or.inl hq
          · exact h6 u hm
    · rw [if_neg hq] at h
      by_cases hgt : (calculate_assignment_score hav db t job).1 > s₀
      · rw [if_pos hgt] at h
        have hacc2 : ∀ x, (some (t, calculate_assignment_score hav db t job)) = some x →
            x.2.1 = (calculate_assignment_score hav db t job).1 := by
          intro x hx
          cases hx
          rfl
        rcases ih _ _ r hacc2 h with ⟨h1, h2⟩ | ⟨h1, h2, h3, h4, l₁, l₂, h5, h6⟩
        · cases h1
          refine Or.inr ⟨hq, rfl, hgt, ?_, [], ts, rfl, by simp⟩
          intro u hu
          rcases List.mem_cons.mp hu with rfl | hm
          · intro _; exact le_refl _
          · exact h2 u hm
        · have htr : (calculate_assignment_score hav db t job).1 <
              (calculate_assignment_score hav db r.1 job).1 := h3
          refine Or.inr ⟨h1, h2, lt_trans hgt htr, ?_, t :: l₁, l₂, by rw [h5, List.cons_append], ?_⟩
          · intro u hu
            rcases List.mem_cons.mp hu with rfl | hm
            · intro _; exact le_of_lt htr
            · exact h4 u hm
          · intro u hu
            rcases List.mem_cons.mp hu with rfl | hm
            · exact Or.inr htr
            · exact h6 u hm
      · rw [if_neg hgt] at h
        have hle : (calculate_assignment_score hav db t job).1 ≤ s₀ := not_lt.mp hgt
        rcases ih acc s₀ r hacc h with ⟨h1, h2⟩ | ⟨h1, h2, h3, h4, l₁, l₂, h5, h6⟩
        · refine Or.inl ⟨h1, ?_⟩
          intro u hu
          rcases List.mem_cons.mp hu with rfl | hm
          · intro _; exact hle
          · exact h2 u hm
        · refine Or.inr ⟨h1, h2, h3, ?_, t :: l₁, l₂, by rw [h5, List.cons_append], ?_⟩
          · intro u hu
            rcases List.mem_cons.mp hu with rfl | hm
            · intro _; exact le_trans hle (le_of_lt h3)
            · exact h4 u hm
          · intro u hu
            rcases List.mem_cons.mp hu with rfl | hm
            · exact Or.inr (lt_of_le_of_lt hle h3)
            · exact h6 u hm

theorem effective_pool_of_ne_nil (db : DB) (now : ℚ) (ts : List Technician)
    (h : ts ≠ []) : effective_pool db now (some ts) = ts := by
  cases ts with
  | nil => exact absurd rfl h
  | cons t ts => rfl

/-! ## Helper lemmas: store updates and availability -/

theorem find?_update {α : Type} (idOf : α → Nat) (l : List α) (x y : α) (k : Nat)
    (h : l.find? (fun z => idOf z == k) = some x) (hid : idOf y = idOf x) :
    (l.map (fun z => if idOf z == idOf y then y else z)).find?
      (fun z => idOf z == k) = some y := by
  have hx : idOf x = k := by simpa using List.find?_some h
  induction l with
  | nil => simp at h
  | cons a l ih =>
    by_cases ha : idOf a = k
    · rw [List.find?_cons_of_pos _ (by simpa using ha)] at h
      have hax : a = x := Option.some.inj h
      subst hax
      have hay : (idOf a == idOf y) = true := by
        rw [beq_iff_eq]
        omega
      simp only [List.map_cons]
      rw [if_pos hay]
      apply List.find?_cons_of_pos
      simp only [beq_iff_eq]
      omega
    · rw [List.find?_cons_of_neg _ (by simpa using ha)] at h
      by_cases hay : idOf a = idOf y
      · exact absurd (by rw [hay, hid, hx]) ha
      · have hc : ¬ ((idOf a == idOf y) = true) := by simp [hay]
        simp only [List.map_cons]
        rw [if_neg hc, List.find?_cons_of_neg _ (by simpa using ha)]
        exact ih h

theorem get_job_updateJob (db : DB) (j j2 : Job) (job_id : Nat)
    (h : get_job db job_id = some j) (hid : j2.id = j.id) :
    get_job (updateJob db j2) job_id = some j2 := by
  unfold get_job updateJob at *
  exact find?_update Job.id db.jobs j j2 job_id h hid

theorem get_technician_updateTech (db : DB) (t t2 : Technician) (tech_id : Nat)
    (h : get_technician db tech_id = some t) (hid : t2.id = t.id) :
    get_technician (updateTech db t2) tech_id = some t2 := by
  unfold get_technician updateTech at *
  exact find?_update Technician.id db.technicians t t2 tech_id h hid

theorem mem_available_iff (db : DB) (now : ℚ) (t : Technician) :
    t ∈ get_available_technicians db now ↔
      t ∈ db.technicians ∧ t.active = true ∧
        (t.free_at = none ∨ ∃ f, t.free_at = some f ∧ f ≤ now) := by
  unfold get_available_technicians
  simp only [List.mem_filter, Bool.and_eq_true]
  constructor
  · rintro ⟨hm, ha, hf⟩
    refine ⟨hm, ha, ?_⟩
    cases hfa : t.free_at with
    | none => exact Or.inl rfl
    | some f =>
      rw [hfa] at hf
      exact Or.inr ⟨f, rfl, of_decide_eq_true hf⟩
  · rintro ⟨hm, ha, hf⟩
    refine ⟨hm, ha, ?_⟩
    rcases hf with hn | ⟨f, hfa, hle⟩
    · rw [hn]
    · rw [hfa]
      exact decide_eq_true hle

theorem scoreSkillSum_none_of_missing (lookup : String → Option Nat) :
    ∀ (rs : List String) (r : String), r ∈ rs → lookup r = none →
      scoreSkillSum lookup rs = none := by
  intro rs
  induction rs with
  | nil => intro r h; simp at h
  | cons a rs ih =>
    intro r h hmiss
    rcases List.mem_cons.mp h with rfl | hm
    · simp [scoreSkillSum, hmiss]
    · simp only [scoreSkillSum]
      cases hl : lookup a with
      | none => rfl
      | some p => rw [ih r hm hmiss]; rfl

/-! ## Claim C1 -/

/-- C1: for every job with a non-empty required-skills set and every
technician whose skill-level map lacks at least one required skill, the skill
factor computed by the Scoring Engine is exactly 0, and
`find_best_technician` never returns that technician as the winner for that
job (the selector filters on a zero skill factor explicitly). -/
theorem C1_missing_skill_disqualifies
    (hav : ℚ → ℚ → ℚ → ℚ → ℚ) (db : DB) (now : ℚ) (job_id : Nat)
    (pool : Option (List Technician)) (tech : Technician) (job : Job) (r : String)
    (hne : job.required_skills ≠ [])
    (hr : r ∈ job.required_skills)
    (hmiss : techSkillLookup tech r = none)
    (hjob : get_job db job_id = some job) :
    score_skill_match tech job = 0 ∧
      ∀ s bd, find_best_technician hav db now job_id pool ≠ some (tech, s, bd) := by
  have hzero : score_skill_match tech job = 0 := by
    unfold score_skill_match
    rw [if_neg hne, scoreSkillSum_none_of_missing (techSkillLookup tech) _ r hr hmiss]
  refine ⟨hzero, ?_⟩
  intro s bd h
  unfold find_best_technician at h
  rw [hjob] at h
  simp only at h
  split at h
  · exact absurd h (by simp)
  · rcases selectLoop_spec hav db job _ none (-1) _ (by simp) h with
      ⟨h1, _⟩ | ⟨h1, _⟩
    · exact absurd h1 (by simp)
    · exact h1 hzero

/-- C1 witness: a job requiring "Electrical" against a technician whose
skill-level map only contains "HVAC". -/
theorem C1_witness :
    jobW1.required_skills ≠ [] ∧ "Electrical" ∈ jobW1.required_skills ∧
      techSkillLookup techW1 "Electrical" = none ∧ get_job dbW1 1 = some jobW1 ∧
      (score_skill_match techW1 jobW1 = 0 ∧
        ∀ s bd, find_best_technician havTaxi dbW1 0 1 none ≠ some (techW1, s, bd)) :=
  ⟨by decide, by decide, by rfl, by rfl,
    C1_missing_skill_disqualifies havTaxi dbW1 0 1 none techW1 jobW1 "Electrical"
      (by decide) (by decide) (by rfl) (by rfl)⟩

/-! ## Claim C5 -/

/-- C5 (amended): `find_best_technician` returns none when the job id does not
exist (there is no PENDING-status check — that guard lives in
`auto_assign_job`); when the pool argument is absent *or empty* it draws
candidates from the availability query (`active` and `free_at` null or ≤ now);
and it returns none exactly when the job is missing or every candidate of the
effective pool is skill-disqualified (in particular when that pool is empty). -/
theorem C5_selector_none_characterization
    (hav : ℚ → ℚ → ℚ → ℚ → ℚ) (db : DB) (now : ℚ) (job_id : Nat)
    (pool : Option (List Technician)) :
    (effective_pool db now none = get_available_technicians db now) ∧
    (effective_pool db now (some []) = get_available_technicians db now) ∧
    (∀ t, t ∈ get_available_technicians db now ↔
        t ∈ db.technicians ∧ t.active = true ∧
          (t.free_at = none ∨ ∃ f, t.free_at = some f ∧ f ≤ now)) ∧
    (find_best_technician hav db now job_id pool = none ↔
      ∀ job, get_job db job_id = some job →
        ∀ t ∈ effective_pool db now pool, score_skill_match t job = 0) := by
  refine ⟨rfl, rfl, fun t => mem_available_iff db now t, ?_⟩
  cases hj : get_job db job_id with
  | none =>
    simp only [find_best_technician, hj]
    constructor
    · intro _ job hjob
      exact absurd hjob (by simp)
    · intro _
      trivial
  | some job =>
    simp only [find_best_technician, hj]
    constructor
    · intro h job2 hjob
      obtain rfl : job = job2 := Option.some.inj hjob
      split at h
      · next hemp => rw [hemp]; intro t ht; exact absurd ht (by simp)
      · intro t ht
        have hall := (selectLoop_none_iff hav db job _ (-1)).mp h t ht
        by_contra hne
        have hle := hall hne
        have h0 := score_nonneg hav db t job
        linarith
    · intro h
      split
      · rfl
      · rw [selectLoop_none_iff]
        intro t ht hne
        exact absurd (h job rfl t ht) hne

/-- C5 counterexample: job 1 is in status ASSIGNED (not PENDING) and the
selector is called with an explicitly empty candidate pool, yet it does not
return none — it silently reloads the availability query (Python falsiness of
the empty list) and scores job 1 despite its status, returning technician 2. -/
theorem C5_counterexample :
    (get_job db5 1).map Job.status = some JobStatus.ASSIGNED ∧
      find_best_technician havTaxi db5 0 1 (some []) ≠ none := by
  refine ⟨rfl, ?_⟩
  have hskill : score_skill_match tech5 job5 = 1 := rfl
  have hpool : effective_pool db5 0 (some []) = [tech5] := rfl
  simp only [find_best_technician, hpool]
  norm_num [selectLoop, breakdown_skill, hskill, get_job, db5, job5,
    List.find?, calculate_assignment_score, weighted_total, score_skill_match,
    score_utilization, score_geography, score_parts_availability,
    score_customer_preference, todayBillable, priority_multiplier, tech5]
  exact Option.some_ne_none _

/-- C5 witness: the availability fallback and the none-characterization
applied to a store whose only candidate is skill-disqualified. -/
theorem C5_witness :
    find_best_technician havTaxi dbW1 0 1 none = none := by
  apply (C5_selector_none_characterization havTaxi dbW1 0 1 none).2.2.2.mpr
  intro job hj t ht
  have hjob : job = jobW1 := by
    have h2 : some jobW1 = some job := by rw [← hj]; rfl
    exact (Option.some.inj h2).symm
  subst hjob
  have ht2 : t ∈ [techW1] := ht
  have := List.mem_singleton.mp ht2
  subst this
  rfl

/-! ## Claim C9 -/

/-- C9: when the job exists and the explicit candidate pool is non-empty and
contains at least one skill-qualified technician, the selector returns a
qualified technician whose total score is the maximum over all qualified
candidates, and when several share that maximum it returns the first such
technician in the pool's iteration order (every earlier candidate is either
skill-disqualified or scores strictly less). -/
theorem C9_selector_max_first_tie
    (hav : ℚ → ℚ → ℚ → ℚ → ℚ) (db : DB) (now : ℚ) (job_id : Nat)
    (job : Job) (ts : List Technician)
    (hjob : get_job db job_id = some job)
    (hne : ts ≠ [])
    (hq : ∃ t ∈ ts, score_skill_match t job ≠ 0) :
    ∃ t s bd, find_best_technician hav db now job_id (some ts) = some (t, s, bd) ∧
      t ∈ ts ∧ score_skill_match t job ≠ 0 ∧
      (s, bd) = calculate_assignment_score hav db t job ∧
      (∀ u ∈ ts, score_skill_match u job ≠ 0 →
        (calculate_assignment_score hav db u job).1 ≤ s) ∧
      ∃ l₁ l₂, ts = l₁ ++ t :: l₂ ∧
        ∀ u ∈ l₁, score_skill_match u job = 0 ∨
          (calculate_assignment_score hav db u job).1 < s := by
  have hpool : effective_pool db now (some ts) = ts :=
    effective_pool_of_ne_nil db now ts hne
  have hnone : selectLoop hav db job ts none (-1) ≠ none := by
    intro h0
    obtain ⟨t0, ht0, hq0⟩ := hq
    have hle := (selectLoop_none_iff hav db job ts (-1)).mp h0 t0 ht0 hq0
    have h1 := score_nonneg hav db t0 job
    linarith
  cases hres : selectLoop hav db job ts none (-1) with
  | none => exact absurd hres hnone
  | some r =>
    rcases selectLoop_spec hav db job ts none (-1) r (by simp) hres with
      ⟨h1, _⟩ | ⟨h1, h2, _, h4, l₁, l₂, h5, h6⟩
    · exact absurd h1 (by simp)
    · refine ⟨r.1, r.2.1, r.2.2, ?_, ?_, h1, ?_, ?_, l₁, l₂, h5, ?_⟩
      · simp only [find_best_technician, hjob, hpool]
        rw [if_neg hne]
        exact hres
      · rw [h5]
        exact List.mem_append_right _ (List.mem_cons_self _ _)
      · rw [← h2]
      · intro u hu hqu
        have h7 := h4 u hu hqu
        rw [← h2] at h7
        exact h7
      · intro u hu
        rcases h6 u hu with hz | hlt
        · exact Or.inl hz
        · rw [← h2] at hlt
          exact Or.inr hlt

/-- C9 witness: two identically scoring candidates in an explicit pool. -/
theorem C9_witness :
    get_job db9 1 = some job9 ∧ ([techA, techB] : List Technician) ≠ [] ∧
      (∃ t ∈ [techA, techB], score_skill_match t job9 ≠ 0) ∧
      (∃ t s bd,
        find_best_technician havTaxi db9 0 1 (some [techA, techB]) = some (t, s, bd) ∧
        t ∈ [techA, techB] ∧ score_skill_match t job9 ≠ 0 ∧
        (s, bd) = calculate_assignment_score havTaxi db9 t job9 ∧
        (∀ u ∈ [techA, techB], score_skill_match u job9 ≠ 0 →
          (calculate_assignment_score havTaxi db9 u job9).1 ≤ s) ∧
        ∃ l₁ l₂, ([techA, techB] : List Technician) = l₁ ++ t :: l₂ ∧
          ∀ u ∈ l₁, score_skill_match u job9 = 0 ∨
            (calculate_assignment_score havTaxi db9 u job9).1 < s) :=
  ⟨rfl, by simp,
    ⟨techA, by simp, by norm_num [score_skill_match, techA, job9]⟩,
    C9_selector_max_first_tie havTaxi db9 0 1 job9 [techA, techB] rfl (by simp)
      ⟨techA, by simp, by norm_num [score_skill_match, techA, job9]⟩⟩

/-! ## Claims C8 and C10 -/

theorem skill_routine_le (tech : Technician) (job : Job)
    (h5 : ∀ q ∈ tech.skill_levels, q.2 ≤ 5) :
    score_skill_match tech { job with priority := Priority.ROUTINE } ≤
      score_skill_match tech job := by
  obtain ⟨jid, rs, pr, st, la, lo, eh, sa, sm, aa, sta, ca, ah⟩ := job
  unfold score_skill_match
  dsimp only
  split
  · exact le_refl _
  · next hne =>
    cases hs : scoreSkillSum (techSkillLookup tech) rs with
    | none => exact le_refl _
    | some total =>
      dsimp only
      have hlen : 0 < (rs.length : ℚ) := by
        have := List.length_pos.mpr hne
        exact_mod_cast this
      have h0 : 0 ≤ total := scoreSkillSum_nonneg _ _ _ hs
      have havg1 : total / (rs.length : ℚ) ≤ 1 := by
        rw [div_le_one hlen]
        exact scoreSkillSum_le tech h5 rs total hs
      have havg0 : 0 ≤ total / (rs.length : ℚ) := by positivity
      rw [if_neg (by simp)]
      split
      · exact le_min havg1 (by nlinarith)
      · exact le_refl _

theorem weighted_total_routine_le (hav : ℚ → ℚ → ℚ → ℚ → ℚ) (db : DB)
    (tech : Technician) (job : Job)
    (h5 : ∀ q ∈ tech.skill_levels, q.2 ≤ 5) :
    weighted_total hav db tech { job with priority := Priority.ROUTINE } ≤
      weighted_total hav db tech job := by
  have hut : score_utilization db tech { job with priority := Priority.ROUTINE } =
      score_utilization db tech job := rfl
  have hgo : score_geography hav db tech { job with priority := Priority.ROUTINE } =
      score_geography hav db tech job := rfl
  have hpa : score_parts_availability db tech { job with priority := Priority.ROUTINE } =
      score_parts_availability db tech job := rfl
  have hcu : score_customer_preference tech { job with priority := Priority.ROUTINE } =
      score_customer_preference tech job := rfl
  have hsk := skill_routine_le tech job h5
  unfold weighted_total
  rw [hut, hgo, hpa, hcu]
  nlinarith

/-- C8: the total equals the weighted factor sum times the priority
multiplier, with the multipliers ROUTINE 1.0, HIGH 1.1, URGENT 1.2,
EMERGENCY 1.5, CRITICAL 2.0; every total is nonnegative; for a fixed
technician and job (with proficiency levels within the model's documented 1–5
scale) any non-ROUTINE priority strictly increases the total relative to
ROUTINE; and EMERGENCY's multiplier is strictly between URGENT's and
CRITICAL's. -/
theorem C8_priority_multiplier
    (hav : ℚ → ℚ → ℚ → ℚ → ℚ) (db : DB) (tech : Technician) (job : Job)
    (h5 : ∀ q ∈ tech.skill_levels, q.2 ≤ 5) :
    (calculate_assignment_score hav db tech job).1 =
        weighted_total hav db tech job * priority_multiplier job.priority ∧
      priority_multiplier Priority.ROUTINE = 1 ∧
      priority_multiplier Priority.HIGH = 1.1 ∧
      priority_multiplier Priority.URGENT = 1.2 ∧
      priority_multiplier Priority.EMERGENCY = 1.5 ∧
      priority_multiplier Priority.CRITICAL = 2 ∧
      0 ≤ (calculate_assignment_score hav db tech job).1 ∧
      (job.priority ≠ Priority.ROUTINE →
        (calculate_assignment_score hav db tech
            { job with priority := Priority.ROUTINE }).1 <
          (calculate_assignment_score hav db tech job).1) ∧
      priority_multiplier Priority.URGENT < priority_multiplier Priority.EMERGENCY ∧
      priority_multiplier Priority.EMERGENCY < priority_multiplier Priority.CRITICAL := by
  refine ⟨rfl, rfl, rfl, rfl, rfl, rfl, score_nonneg hav db tech job, ?_,
    by norm_num [priority_multiplier], by norm_num [priority_multiplier]⟩
  intro hp
  have hm1 : 1 < priority_multiplier job.priority := pm_gt_one job.priority hp
  have hWR : 0 < weighted_total hav db tech { job with priority := Priority.ROUTINE } :=
    weighted_total_pos hav db tech _
  have hWle := weighted_total_routine_le hav db tech job h5
  have hpr : priority_multiplier ({ job with priority := Priority.ROUTINE } : Job).priority = 1 := rfl
  show weighted_total hav db tech { job with priority := Priority.ROUTINE } *
      priority_multiplier ({ job with priority := Priority.ROUTINE } : Job).priority <
    weighted_total hav db tech job * priority_multiplier job.priority
  rw [hpr, mul_one]
  calc weighted_total hav db tech { job with priority := Priority.ROUTINE }
      < weighted_total hav db tech { job with priority := Priority.ROUTINE } *
          priority_multiplier job.priority := by nlinarith
    _ ≤ weighted_total hav db tech job * priority_multiplier job.priority := by
        have hm0 : 0 < priority_multiplier job.priority := pm_pos job.priority
        nlinarith

/-- C8 witness: a CRITICAL job against a fully qualified technician. -/
theorem C8_witness :
    (∀ q ∈ techW1.skill_levels, q.2 ≤ 5) ∧
      ((calculate_assignment_score havTaxi dbW1 techW1 jobW8).1 =
          weighted_total havTaxi dbW1 techW1 jobW8 *
            priority_multiplier jobW8.priority ∧
        priority_multiplier Priority.ROUTINE = 1 ∧
        priority_multiplier Priority.HIGH = 1.1 ∧
        priority_multiplier Priority.URGENT = 1.2 ∧
        priority_multiplier Priority.EMERGENCY = 1.5 ∧
        priority_multiplier Priority.CRITICAL = 2 ∧
        0 ≤ (calculate_assignment_score havTaxi dbW1 techW1 jobW8).1 ∧
        (jobW8.priority ≠ Priority.ROUTINE →
          (calculate_assignment_score havTaxi dbW1 techW1
              { jobW8 with priority := Priority.ROUTINE }).1 <
            (calculate_assignment_score havTaxi dbW1 techW1 jobW8).1) ∧
        priority_multiplier Priority.URGENT < priority_multiplier Priority.EMERGENCY ∧
        priority_multiplier Priority.EMERGENCY < priority_multiplier Priority.CRITICAL) :=
  ⟨by decide, C8_priority_multiplier havTaxi dbW1 techW1 jobW8 (by decide)⟩

/-- C10: each of the five factor scores lies in [0,1] (skill under the
model's documented 1–5 proficiency scale), the weights sum to 1, the largest
priority multiplier is 2.0, and hence the total assignment score is at most
2.0 — the score range is bounded. -/
theorem C10_score_bounded
    (hav : ℚ → ℚ → ℚ → ℚ → ℚ) (db : DB) (tech : Technician) (job : Job)
    (h5 : ∀ q ∈ tech.skill_levels, q.2 ≤ 5) :
    (0 ≤ score_skill_match tech job ∧ score_skill_match tech job ≤ 1) ∧
      (0 ≤ score_utilization db tech job ∧ score_utilization db tech job ≤ 1) ∧
      (0 ≤ score_geography hav db tech job ∧ score_geography hav db tech job ≤ 1) ∧
      (0 ≤ score_parts_availability db tech job ∧
        score_parts_availability db tech job ≤ 1) ∧
      (0 ≤ score_customer_preference tech job ∧
        score_customer_preference tech job ≤ 1) ∧
      (0.35 + 0.25 + 0.20 + 0.15 + 0.05 : ℚ) = 1 ∧
      priority_multiplier job.priority ≤ 2 ∧
      (calculate_assignment_score hav db tech job).1 ≤ 2 := by
  have hsk := skill_nonneg tech job
  have hsk1 := skill_le_one tech job h5
  have hut := util_bounds db tech job
  have hgo := geo_bounds hav db tech job
  have hpa := parts_bounds db tech job
  have hcu := customer_bounds tech job
  refine ⟨⟨hsk, hsk1⟩, hut, hgo, hpa, hcu, by norm_num, pm_le_two job.priority, ?_⟩
  have hW1 : weighted_total hav db tech job ≤ 1 := weighted_total_le_one hav db tech job h5
  have hW0 : 0 ≤ weighted_total hav db tech job := weighted_total_nonneg hav db tech job
  have hm0 : 0 < priority_multiplier job.priority := pm_pos job.priority
  have hm2 : priority_multiplier job.priority ≤ 2 := pm_le_two job.priority
  show weighted_total hav db tech job * priority_multiplier job.priority ≤ 2
  nlinarith

/-- C10 witness: the bound evaluated for a concrete technician and job. -/
theorem C10_witness :
    (∀ q ∈ techW1.skill_levels, q.2 ≤ 5) ∧
      (calculate_assignment_score havTaxi dbW1 techW1 jobW1).1 ≤ 2 :=
  ⟨by decide, (C10_score_bounded havTaxi dbW1 techW1 jobW1 (by decide)).2.2.2.2.2.2.2⟩

/-! ## Claim C2 -/

/-- C2: evaluation of `start_job` at its failing input.  On an ASSIGNED job
whose `submitted_at` is set (the normal state — `create_job` always sets it),
`start_job` raises instead of transitioning: it writes `assigned_at` — not
`started_at` — and then reads `job.started_at`, which nothing in the system
ever sets (and which is not a `models.Job` column), so the SLA computation
raises and the transaction is rolled back; the job stays ASSIGNED, and
neither `started_at` nor `sla_met` is ever written.  The ASSIGNED guard
itself works: a PENDING job gets the precondition failure. -/
theorem C2_start_job_raises :
    start_job dbC2 102 1 = (LifecycleResult.raised, dbC2) ∧
      jobC2.status = JobStatus.ASSIGNED ∧ jobC2.submitted_at = some 100 ∧
      start_job dbW1 102 1 = (LifecycleResult.precondFailed, dbW1) :=
  ⟨rfl, rfl, rfl, rfl⟩

/-! ## Claim C4 -/

/-- C4 counterexample: invoking cancel on a COMPLETED job does not report a
precondition failure — `cancel_job` has no status guard, so it silently
succeeds and sets the status to CANCELLED. -/
theorem C4_counterexample :
    jobC4.status = JobStatus.COMPLETED ∧
      (cancel_job dbC4 50 1).1 =
        LifecycleResult.ok { jobC4 with status := JobStatus.CANCELLED } :=
  ⟨rfl, rfl⟩

/-- C4 (amended): for every found job — in particular one whose status is
COMPLETED or CANCELLED — `cancel_job` silently succeeds: it sets the status
to CANCELLED, leaves every other field of the job (all timestamps included)
unchanged, and never reports a precondition failure. -/
theorem C4_cancel_no_guard (db : DB) (now : ℚ) (job_id : Nat) (job : Job)
    (hjob : get_job db job_id = some job)
    (_hterm : job.status = JobStatus.COMPLETED ∨ job.status = JobStatus.CANCELLED) :
    (cancel_job db now job_id).1 =
        LifecycleResult.ok { job with status := JobStatus.CANCELLED } ∧
      get_job (cancel_job db now job_id).2 job_id =
        some { job with status := JobStatus.CANCELLED } := by
  have hupd : get_job (updateJob db { job with status := JobStatus.CANCELLED }) job_id =
      some { job with status := JobStatus.CANCELLED } :=
    get_job_updateJob db job _ job_id hjob rfl
  simp only [cancel_job, hjob]
  constructor
  · repeat' split
    all_goals rfl
  · repeat' split
    all_goals exact hupd

/-- C4 witness: the amended statement applied to the COMPLETED job. -/
theorem C4_witness :
    get_job dbC4 1 = some jobC4 ∧
      (jobC4.status = JobStatus.COMPLETED ∨ jobC4.status = JobStatus.CANCELLED) ∧
      ((cancel_job dbC4 50 1).1 =
          LifecycleResult.ok { jobC4 with status := JobStatus.CANCELLED } ∧
        get_job (cancel_job dbC4 50 1).2 1 =
          some { jobC4 with status := JobStatus.CANCELLED }) :=
  ⟨rfl, Or.inl rfl, C4_cancel_no_guard dbC4 50 1 jobC4 rfl (Or.inl rfl)⟩

/-! ## Claims C3 and C6 -/

theorem auto_assign_spec (hav : ℚ → ℚ → ℚ → ℚ → ℚ) (db : DB) (now : ℚ)
    (job_id : Nat) (job : Job) (a : Assignment) (db2 : DB)
    (hjob : get_job db job_id = some job)
    (hres : auto_assign_job hav db now job_id = (some a, db2)) :
    job.status = JobStatus.PENDING ∧
    ∃ tech s bd, find_best_technician hav db now job_id none = some (tech, s, bd) ∧
      a.job_id = job.id ∧ a.tech_id = tech.id ∧ a.assigned_at = now ∧
      a.distance_miles = db_haversine hav (some (orZero job.lat)) (some (orZero job.lon))
        (some (orZero tech.current_lat)) (some (orZero tech.current_lon)) ∧
      a.travel_time_hours = a.distance_miles / 30 ∧
      a.match_score = s ∧
      db2 = { updateTech (updateJob db { job with status := JobStatus.ASSIGNED })
                { tech with free_at := some (now + a.travel_time_hours + job.estimated_hours) }
              with assignments := db.assignments ++ [a] } := by
  simp only [auto_assign_job, hjob] at hres
  split at hres
  · exact absurd (congrArg Prod.fst hres) (by simp)
  · next hstat =>
    have hpend : job.status = JobStatus.PENDING := not_not.mp hstat
    refine ⟨hpend, ?_⟩
    cases hfb : find_best_technician hav db now job_id none with
    | none =>
      rw [hfb] at hres
      exact absurd (congrArg Prod.fst hres) (by simp)
    | some r =>
      obtain ⟨tech, s, bd⟩ := r
      rw [hfb] at hres
      simp only at hres
      obtain ⟨ha, hdb⟩ := Prod.mk.injEq .. ▸ hres
      have ha2 := Option.some.inj ha
      refine ⟨tech, s, bd, rfl, ?_, ?_, ?_, ?_, ?_, ?_, ?_⟩
      · rw [← ha2]
      · rw [← ha2]
      · rw [← ha2]
      · rw [← ha2]
      · rw [← ha2]
      · rw [← ha2]
      · rw [← hdb, ← ha2]
        rfl

/-- C3 (amended): a successful auto-assignment of a PENDING job creates the
Assignment row recording distance, travel time (distance/30) and match score,
sets `job.status = ASSIGNED`, and sets the winning technician's `free_at` to
now + travel time + estimated hours; but it does NOT set `job.assigned_at`
(the job row's `assigned_at` attribute is left exactly as it was — the source
comments "ONLY update status"), and it is not the only operation that moves a
job out of PENDING: `cancel_job` moves any PENDING job straight to CANCELLED. -/
theorem C3_assignment_transaction (hav : ℚ → ℚ → ℚ → ℚ → ℚ) (db : DB) (now : ℚ)
    (job_id : Nat) (job : Job) (a : Assignment) (db2 : DB)
    (hjob : get_job db job_id = some job)
    (hres : auto_assign_job hav db now job_id = (some a, db2)) :
    job.status = JobStatus.PENDING ∧
    (∃ tech s bd, find_best_technician hav db now job_id none = some (tech, s, bd) ∧
      a.job_id = job.id ∧ a.tech_id = tech.id ∧ a.assigned_at = now ∧
      a.distance_miles = db_haversine hav (some (orZero job.lat)) (some (orZero job.lon))
        (some (orZero tech.current_lat)) (some (orZero tech.current_lon)) ∧
      a.travel_time_hours = a.distance_miles / 30 ∧
      a.match_score = s ∧
      db2.assignments = db.assignments ++ [a] ∧
      get_job db2 job_id = some { job with status := JobStatus.ASSIGNED } ∧
      ({ job with status := JobStatus.ASSIGNED } : Job).assigned_at = job.assigned_at ∧
      (∀ t0, get_technician db tech.id = some t0 →
        get_technician db2 tech.id =
          some { tech with
            free_at := some (now + a.travel_time_hours + job.estimated_hours) })) ∧
    (cancel_job db now job_id).1 =
      LifecycleResult.ok { job with status := JobStatus.CANCELLED } := by
  obtain ⟨hpend, tech, s, bd, hfb, h1, h2, h3, h4, h5, h6, hdb2⟩ :=
    auto_assign_spec hav db now job_id job a db2 hjob hres
  refine ⟨hpend, ⟨tech, s, bd, hfb, h1, h2, h3, h4, h5, h6, ?_, ?_, rfl, ?_⟩, ?_⟩
  · rw [hdb2]
  · rw [hdb2]
    exact get_job_updateJob db job _ job_id hjob rfl
  · intro t0 ht0
    have hid : t0.id = tech.id := by
      unfold get_technician at ht0
      simpa using List.find?_some ht0
    rw [hdb2]
    exact get_technician_updateTech
      (updateJob db { job with status := JobStatus.ASSIGNED }) t0
      { tech with free_at := some (now + a.travel_time_hours + job.estimated_hours) }
      tech.id ht0 hid.symm
  · simp only [cancel_job, hjob]
    repeat' split
    all_goals rfl

/-- C3 counterexample: a successful auto-assignment (job 1 to technician 2
at now = 10) leaves the assigned job's `assigned_at` unset — the claim's
"sets job.assigned_at = now" is false — and `cancel_job`, another operation
of the system, moves the same PENDING job out of PENDING. -/
theorem C3_counterexample :
    ((auto_assign_job havTaxi db3 10 1).1.map Assignment.job_id = some 1) ∧
      ((get_job (auto_assign_job havTaxi db3 10 1).2 1).map Job.status =
        some JobStatus.ASSIGNED) ∧
      ((get_job (auto_assign_job havTaxi db3 10 1).2 1).map Job.assigned_at =
        some none) ∧
      job3.status = JobStatus.PENDING ∧
      (cancel_job db3 10 1).1 =
        LifecycleResult.ok { job3 with status := JobStatus.CANCELLED } := by
  refine ⟨?_, ?_, ?_, rfl, rfl⟩ <;>
    norm_num [auto_assign_job, find_best_technician, effective_pool,
      get_available_technicians, get_job, db3, job3, tech3, List.find?, selectLoop,
      calculate_assignment_score, weighted_total, score_skill_match,
      score_utilization, score_geography, score_parts_availability,
      score_customer_preference, todayBillable, priority_multiplier, db_haversine,
      orZero, havTaxi, updateJob, updateTech, nextJobLookup]

/-- C3 witness: the amended statement applied to the concrete store. -/
theorem C3_witness :
    get_job db3 1 = some job3 ∧
      (job3.status = JobStatus.PENDING ∧
      (∃ tech s bd, find_best_technician havTaxi db3 10 1 none = some (tech, s, bd) ∧
        a3.job_id = job3.id ∧ a3.tech_id = tech.id ∧ a3.assigned_at = 10 ∧
        a3.distance_miles = db_haversine havTaxi (some (orZero job3.lat))
          (some (orZero job3.lon)) (some (orZero tech.current_lat))
          (some (orZero tech.current_lon)) ∧
        a3.travel_time_hours = a3.distance_miles / 30 ∧
        a3.match_score = s ∧
        db3x.assignments = db3.assignments ++ [a3] ∧
        get_job db3x 1 = some { job3 with status := JobStatus.ASSIGNED } ∧
        ({ job3 with status := JobStatus.ASSIGNED } : Job).assigned_at = job3.assigned_at ∧
        (∀ t0, get_technician db3 tech.id = some t0 →
          get_technician db3x tech.id =
            some { tech with
              free_at := some (10 + a3.travel_time_hours + job3.estimated_hours) })) ∧
      (cancel_job db3 10 1).1 =
        LifecycleResult.ok { job3 with status := JobStatus.CANCELLED }) :=
  ⟨rfl, C3_assignment_transaction havTaxi db3 10 1 job3 a3 db3x rfl (by
    norm_num [auto_assign_job, find_best_technician, effective_pool,
      get_available_technicians, get_job, db3, db3x, job3, tech3, a3, List.find?,
      selectLoop, calculate_assignment_score, weighted_total, score_skill_match,
      score_utilization, score_geography, score_parts_availability,
      score_customer_preference, todayBillable, priority_multiplier, db_haversine,
      orZero, havTaxi, updateJob, updateTech, nextJobLookup])⟩

/-- C6 (amended): missing coordinates are substituted with zero instead of
being treated as "distance unknown": `DatabaseHelper.haversine` returns 0.0
whenever any coordinate is null; a successful auto-assignment computes the
stored distance from `or 0` sentinel coordinates; and the geography scorer
substitutes 0.0 for the job's missing coordinates — only the technician's own
missing coordinates are special-cased, to the neutral 0.5. -/
theorem C6_sentinel_zero_substitution (hav : ℚ → ℚ → ℚ → ℚ → ℚ) :
    (∀ lat1 lon1 lat2 lon2 : Option ℚ,
        lat1 = none ∨ lon1 = none ∨ lat2 = none ∨ lon2 = none →
        db_haversine hav lat1 lon1 lat2 lon2 = 0) ∧
    (∀ (db : DB) (tech : Technician) (job : Job),
        tech.current_lat = none ∨ tech.current_lon = none →
        score_geography hav db tech job = 0.5) ∧
    (∀ (db : DB) (now : ℚ) (job_id : Nat) (job : Job) (a : Assignment) (db2 : DB),
        get_job db job_id = some job →
        auto_assign_job hav db now job_id = (some a, db2) →
        ∃ tech s bd, find_best_technician hav db now job_id none = some (tech, s, bd) ∧
          a.distance_miles = db_haversine hav (some (orZero job.lat))
            (some (orZero job.lon)) (some (orZero tech.current_lat))
            (some (orZero tech.current_lon))) := by
  refine ⟨?_, ?_, ?_⟩
  · intro l1 l2 l3 l4 h
    cases l1 <;> cases l2 <;> cases l3 <;> cases l4 <;>
      first
        | rfl
        | (rcases h with h | h | h | h <;> exact absurd h (by simp))
  · intro db tech job h
    cases hlat : tech.current_lat with
    | none => cases hlon : tech.current_lon <;> simp [score_geography, hlat, hlon]
    | some x =>
      cases hlon : tech.current_lon with
      | none => simp [score_geography, hlat, hlon]
      | some y =>
        rcases h with h | h
        · rw [hlat] at h
          exact absurd h (by simp)
        · rw [hlon] at h
          exact absurd h (by simp)
  · intro db now job_id job a db2 hjob hres
    obtain ⟨_, tech, s, bd, hfb, _, _, _, h4, _⟩ :=
      auto_assign_spec hav db now job_id job a db2 hjob hres
    exact ⟨tech, s, bd, hfb, h4⟩

/-- C6 counterexample: the distance computation and its callers substitute
zero for missing coordinates instead of treating the distance as unknown — a
null first coordinate makes `haversine` return 0; a job with no recorded
location still gets a definite far-tier geography score (computed to the
sentinel origin (0,0)); and auto-assignment stores a definite 80-mile
distance to the same sentinel origin. -/
theorem C6_counterexample :
    db_haversine havTaxi none (some 1) (some 2) (some 3) = 0 ∧
      jobC6.lat = none ∧
      score_geography havTaxi dbC6 techC6 jobC6 = 0.2 ∧
      ((auto_assign_job havTaxi dbC6 10 1).1.map Assignment.distance_miles =
        some 80) := by
  refine ⟨rfl, rfl, ?_, ?_⟩ <;>
    norm_num [auto_assign_job, find_best_technician, effective_pool,
      get_available_technicians, get_job, dbC6, jobC6, techC6, List.find?,
      selectLoop, calculate_assignment_score, weighted_total, score_skill_match,
      score_utilization, score_geography, score_parts_availability,
      score_customer_preference, todayBillable, priority_multiplier, db_haversine,
      orZero, havTaxi, updateJob, updateTech, nextJobLookup]

/-- C6 witness: the amended haversine clause applied at a null coordinate. -/
theorem C6_witness :
    ((none : Option ℚ) = none ∨ (some (1:ℚ) : Option ℚ) = none ∨
        (some (2:ℚ) : Option ℚ) = none ∨ (some (3:ℚ) : Option ℚ) = none) ∧
      db_haversine havTaxi none (some 1) (some 2) (some 3) = 0 :=
  ⟨Or.inl rfl,
    (C6_sentinel_zero_substitution havTaxi).1 none (some 1) (some 2) (some 3)
      (Or.inl rfl)⟩

/-- C7 (amended): the geography factor is 0.5 when the technician's location
is unknown OR either technician coordinate equals 0 (Python truthiness of
`not tech_lat`); otherwise — with the job's missing coordinates substituted
by 0 — when the next-job lookahead (the first *other* job in the store) is
absent or lacks a coordinate, the factor tiers on the tech-to-job distance
(<5 → 1.0, <15 → 0.8, <30 → 0.5, else 0.2); when the lookahead job has both
coordinates, the detour distance(tech→job) + distance(job→next) −
distance(tech→next) tiers (<5 → 1.0, <15 → 0.7, else 0.3), overriding the
plain-distance tiers. -/
theorem C7_geography_tiers (hav : ℚ → ℚ → ℚ → ℚ → ℚ) (db : DB)
    (tech : Technician) (job : Job) :
    ((tech.current_lat = none ∨ tech.current_lon = none ∨
        tech.current_lat = some 0 ∨ tech.current_lon = some 0) →
      score_geography hav db tech job = 0.5) ∧
    (∀ tlat tlon, tech.current_lat = some tlat → tech.current_lon = some tlon →
      tlat ≠ 0 → tlon ≠ 0 →
      ((nextJobCoords db job = none →
        score_geography hav db tech job =
          if hav tlat tlon (orZero job.lat) (orZero job.lon) < 5 then 1
          else if hav tlat tlon (orZero job.lat) (orZero job.lon) < 15 then 0.8
          else if hav tlat tlon (orZero job.lat) (orZero job.lon) < 30 then 0.5
          else 0.2) ∧
      (∀ nlat nlon, nextJobCoords db job = some (nlat, nlon) →
        score_geography hav db tech job =
          if hav tlat tlon (orZero job.lat) (orZero job.lon)
              + hav (orZero job.lat) (orZero job.lon) nlat nlon
              - hav tlat tlon nlat nlon < 5 then 1
          else if hav tlat tlon (orZero job.lat) (orZero job.lon)
              + hav (orZero job.lat) (orZero job.lon) nlat nlon
              - hav tlat tlon nlat nlon < 15 then 0.7
          else 0.3))) := by
  constructor
  · intro h
    cases hlat : tech.current_lat with
    | none => cases hlon : tech.current_lon <;> simp [score_geography, hlat, hlon]
    | some x =>
      cases hlon : tech.current_lon with
      | none => simp [score_geography, hlat, hlon]
      | some y =>
        have hxy : x = 0 ∨ y = 0 := by
          rcases h with h | h | h | h
          · rw [hlat] at h; exact absurd h (by simp)
          · rw [hlon] at h; exact absurd h (by simp)
          · rw [hlat] at h; exact Or.inl (Option.some.inj h)
          · rw [hlon] at h; exact Or.inr (Option.some.inj h)
        simp only [score_geography, hlat, hlon]
        rw [if_pos hxy]
  · intro tlat tlon hlat hlon htz hlz
    have hcond : ¬(tlat = 0 ∨ tlon = 0) := by
      rintro (h | h)
      exacts [htz h, hlz h]
    constructor
    · intro hnc
      unfold nextJobCoords at hnc
      simp only [score_geography, hlat, hlon]
      rw [if_neg hcond]
      cases hnj : nextJobLookup db job with
      | none => rfl
      | some nj =>
        rw [hnj] at hnc
        dsimp only at hnc ⊢
        cases hla : nj.lat with
        | none => rfl
        | some nlat =>
          cases hlb : nj.lon with
          | none => rfl
          | some nlon =>
            simp [hla, hlb] at hnc
    · intro nlat nlon hnc
      unfold nextJobCoords at hnc
      simp only [score_geography, hlat, hlon]
      rw [if_neg hcond]
      cases hnj : nextJobLookup db job with
      | none => rw [hnj] at hnc; exact absurd hnc (by simp)
      | some nj =>
        rw [hnj] at hnc
        dsimp only at hnc ⊢
        cases hla : nj.lat with
        | none => simp [hla] at hnc
        | some a2 =>
          cases hlb : nj.lon with
          | none => simp [hla, hlb] at hnc
          | some b2 =>
            rw [hla, hlb] at hnc
            dsimp only at hnc
            obtain ⟨rfl, rfl⟩ : a2 = nlat ∧ b2 = nlon := by
              have h2 := Option.some.inj hnc
              exact ⟨congrArg Prod.fst h2, congrArg Prod.snd h2⟩
            rfl

/-- C7 counterexample: a technician with a *known* location (0, 10) standing
exactly at the job's location — distance 0, below every tier bound, no
lookahead job — receives 0.5 instead of the claimed 1.0, because the Python
truthiness test treats the latitude 0.0 as missing. -/
theorem C7_counterexample :
    techC7.current_lat = some 0 ∧ techC7.current_lon = some 10 ∧
      havTaxi 0 10 (orZero jobC7.lat) (orZero jobC7.lon) = 0 ∧
      nextJobCoords dbC7 jobC7 = none ∧
      score_geography havTaxi dbC7 techC7 jobC7 = 0.5 ∧
      score_geography havTaxi dbC7 techC7 jobC7 ≠ 1 := by
  refine ⟨rfl, rfl, by norm_num [havTaxi, jobC7, orZero], rfl, ?_, ?_⟩ <;>
    norm_num [score_geography, dbC7, techC7, jobC7, nextJobLookup, orZero,
      havTaxi, List.find?]

/-- C7 witness: the zero-coordinate clause of the amended statement. -/
theorem C7_witness :
    (techC7.current_lat = none ∨ techC7.current_lon = none ∨
        techC7.current_lat = some 0 ∨ techC7.current_lon = some 0) ∧
      score_geography havTaxi dbC7 techC7 jobC7 = 0.5 :=
  ⟨Or.inr (Or.inr (Or.inl rfl)),
    (C7_geography_tiers havTaxi dbC7 techC7 jobC7).1 (Or.inr (Or.inr (Or.inl rfl)))⟩
